import Mathlib

/-!
Verification development for the aspath backend (src/backend/app/main.py).

The relational store is modelled as an explicit in-memory structure holding
the five tables; each endpoint of the FastAPI app becomes a pure function
from the store (and its path parameters) to either an HTTP error or its
response payload.  Timestamps (`created_at`) are modelled as natural numbers
(seconds since an epoch); calendar-date granularity (`strftime` with a
date-only format) is modelled as division by 86400.
-/

namespace Aspath

/-- Snapshot status values used by the backend. -/
inductive Status
  | pending
  | parsed
  | failed
deriving DecidableEq, Repr

/-- Row of the internet_exchange_points table. -/
structure ExchangePoint where
  id : Nat
  name : String
deriving DecidableEq, Repr

/-- Row of the route_collectors table. -/
structure RouteCollector where
  id : Nat
  name : String
  ixp_id : Nat
deriving DecidableEq, Repr

/-- Row of the routing_snapshots table. -/
structure RoutingSnapshot where
  id : Nat
  route_collector_id : Nat
  created_at : Nat
  status : Status
deriving DecidableEq, Repr

/-- Row of the ip_routes table.  `created_at` is the denormalized copy of the
owning snapshot's creation timestamp; `path` is the AS path, last element is
the origin AS. -/
structure RouteRow where
  block : String
  path : List Nat
  snapshot_id : Nat
  created_at : Nat
deriving DecidableEq, Repr

/-- Row of the autonomous_systems table. -/
structure AutonomousSystem where
  number : Nat
  name : String
deriving DecidableEq, Repr

/-- The relational store: the five tables read by main.py. -/
structure Store where
  internet_exchange_points : List ExchangePoint
  route_collectors : List RouteCollector
  routing_snapshots : List RoutingSnapshot
  ip_routes : List RouteRow
  autonomous_systems : List AutonomousSystem
deriving DecidableEq, Repr

/-- fastapi HTTPException as raised by main.py: a status code and a detail
string. -/
structure HTTPException where
  status_code : Nat
  detail : String
deriving DecidableEq, Repr

/-- The 404 raised when the collector name resolves to nothing. -/
def collectorNotFound : HTTPException :=
  { status_code := 404, detail := "Route Collector not found" }

/-- The 404 raised when no snapshot is found. -/
def snapshotNotFound : HTTPException :=
  { status_code := 404, detail := "Routing snapshot not found" }

/-- Projection returned by get_route_collector_snapshots:
select id, created_at. -/
structure SnapshotSummary where
  id : Nat
  created_at : Nat
deriving DecidableEq, Repr

/-- One row of the raw route+AS join: block, path, origin (last element of
path, none on an empty path) and the left-joined autonomous_systems.name
(the spec calls this field as_name). -/
structure RouteOut where
  block : String
  path : List Nat
  origin : Option Nat
  as_name : Option String
deriving DecidableEq, Repr

/-- Metadata block of both route endpoints: the snapshot creation time
(UTC-normalized in the source, a plain timestamp here) and the snapshot id. -/
structure SnapshotMetadata where
  created_at : Nat
  snapshot_id : Nat
deriving DecidableEq, Repr

/-- Response shape of both route endpoints. -/
structure RoutesResponse where
  metadata : SnapshotMetadata
  routes : List RouteOut
deriving DecidableEq, Repr

/-- Projection of one ip_routes row through the raw SQL join:
path->>-1 is the last element of the path, and the LEFT JOIN on
autonomous_systems.number yields the name when the origin matches, else
null. -/
def projectRow (db : Store) (r : RouteRow) : RouteOut :=
  let origin := r.path.getLast?
  { block := r.block
    path := r.path
    origin := origin
    as_name :=
      match origin with
      | none => none
      | some o =>
          (db.autonomous_systems.find? (fun a => decide (a.number = o))).map
            AutonomousSystem.name }

/-- The shared raw route-fetch query of both route endpoints:
WHERE ip_routes.created_at = T AND ip_routes.snapshot_id = S, each selected
row left-joined with autonomous_systems on the last path element. -/
def fetch_routes (db : Store) (created_at : Nat) (snapshot_id : Nat) :
    List RouteOut :=
  (db.ip_routes.filter
      (fun r => decide (r.created_at = created_at ∧ r.snapshot_id = snapshot_id))).map
    (projectRow db)

/-- masoniteorm .last(key): the record with the maximum key (the last record
when ordered ascending by the key); none on an empty table. -/
def lastBy {α : Type} (key : α → Nat) : List α → Option α
  | [] => none
  | x :: xs => some (xs.foldl (fun acc y => if key acc ≤ key y then y else acc) x)

/-- Comparator for order_by created_at desc over snapshots. -/
def descCreatedAt (a b : RoutingSnapshot) : Bool :=
  decide (b.created_at ≤ a.created_at)

/-- order_by key desc, limit 1, first: the first row carrying the maximal
key (the head of the stable descending sort); none on an empty table. -/
def firstMaxBy {α : Type} (key : α → Nat) : List α → Option α
  | [] => none
  | x :: xs => some (xs.foldl (fun acc y => if key acc < key y then y else acc) x)

/-- GET /route-collectors/collector_name/snapshots/ : resolve the collector
by name (404 when absent), then return the parsed snapshots of that
collector ordered by created_at descending, each reduced to id and
created_at. -/
def get_route_collector_snapshots (db : Store) (collector_name : String) :
    Except HTTPException (List SnapshotSummary) :=
  match db.route_collectors.find? (fun c => decide (c.name = collector_name)) with
  | none => .error collectorNotFound
  | some route_collector =>
      .ok
        (((db.routing_snapshots.filter
              (fun s =>
                decide (s.route_collector_id = route_collector.id ∧
                  s.status = Status.parsed))).mergeSort descCreatedAt).map
          (fun s => { id := s.id, created_at := s.created_at }))

/-- GET /route-collectors/collector_name/snapshots/latest/routes : resolve
the collector by name (404 when absent), take the snapshot of that collector
with the maximum id (no status filter; 404 when the collector has no
snapshot), then run the shared route fetch.  This is the first occurrence of
get_snapshot_routes in main.py. -/
def get_latest_routes (db : Store) (collector_name : String) :
    Except HTTPException RoutesResponse :=
  match db.route_collectors.find? (fun c => decide (c.name = collector_name)) with
  | none => .error collectorNotFound
  | some route_collector =>
      match lastBy RoutingSnapshot.id
          (db.routing_snapshots.filter
            (fun s => decide (s.route_collector_id = route_collector.id))) with
      | none => .error snapshotNotFound
      | some snapshot =>
          .ok
            { metadata :=
                { created_at := snapshot.created_at, snapshot_id := snapshot.id }
              routes := fetch_routes db snapshot.created_at snapshot.id }

/-- GET /route-collectors/collector_name/snapshots/snapshot_id/routes :
resolve the collector by name (404 when absent), then resolve the snapshot
by its id alone — the source never compares the snapshot with the resolved
collector — and run the shared route fetch.  This is the second occurrence
of get_snapshot_routes in main.py. -/
def get_snapshot_routes (db : Store) (collector_name : String)
    (snapshot_id : Nat) : Except HTTPException RoutesResponse :=
  match db.route_collectors.find? (fun c => decide (c.name = collector_name)) with
  | none => .error collectorNotFound
  | some _route_collector =>
      match db.routing_snapshots.find? (fun s => decide (s.id = snapshot_id)) with
      | none => .error snapshotNotFound
      | some snapshot =>
          .ok
            { metadata :=
                { created_at := snapshot.created_at, snapshot_id := snapshot.id }
              routes := fetch_routes db snapshot.created_at snapshot.id }

/-- strftime with a date-only format, modelled as the day number of the
timestamp. -/
def dateOf (t : Nat) : Nat := t / 86400

/-- One entry of the exchange-points index response: the exchange point
fields plus the attached summary fields (absent when the exchange point has
no snapshot at all). -/
structure ExchangePointOut where
  id : Nat
  name : String
  route_collectors : Nat
  last_snapshot_date : Option Nat
  last_snapshot_id : Option Nat
  last_snapshot_collector_name : Option String
deriving DecidableEq, Repr

/-- One loop iteration of the exchange-points index: count the collectors
of the exchange point and attach the snapshot with the most recent
created_at across all those collectors (order_by created_at desc limit 1,
no status filter), reducing its date to calendar granularity and naming its
collector. -/
def ixpSummary (db : Store) (ixp : ExchangePoint) : ExchangePointOut :=
  let collectors := db.route_collectors.filter (fun c => decide (c.ixp_id = ixp.id))
  let collector_ids := collectors.map RouteCollector.id
  let snaps :=
    db.routing_snapshots.filter (fun s => collector_ids.contains s.route_collector_id)
  let last_update := firstMaxBy RoutingSnapshot.created_at snaps
  { id := ixp.id
    name := ixp.name
    route_collectors := collector_ids.length
    last_snapshot_date := last_update.map (fun s => dateOf s.created_at)
    last_snapshot_id := last_update.map RoutingSnapshot.id
    last_snapshot_collector_name :=
      last_update.bind (fun s =>
        (collectors.find? (fun c => decide (c.id = s.route_collector_id))).map
          RouteCollector.name) }

/-- GET /exchange-points/ : one summary per exchange point. -/
def exchange_points_index (db : Store) : List ExchangePointOut :=
  db.internet_exchange_points.map (ixpSummary db)

/-- GET /statistics : the four independent table counts. -/
structure Statistics where
  route_collector_count : Nat
  snapshots_count : Nat
  autonomous_systems : Nat
  ixp_count : Nat
deriving DecidableEq, Repr

/-- GET /statistics in main.py: four unrelated count queries. -/
def get_database_statistics (db : Store) : Statistics :=
  { route_collector_count := db.route_collectors.length
    snapshots_count := db.routing_snapshots.length
    autonomous_systems := db.autonomous_systems.length
    ixp_count := db.internet_exchange_points.length }

/-- Inserting one new route collector row, all other tables untouched. -/
def addRouteCollector (db : Store) (c : RouteCollector) : Store :=
  { db with route_collectors := db.route_collectors ++ [c] }

/-- A cron trigger as built by crontab(hour, minute) in the startup hook. -/
structure CronTrigger where
  hour : Nat
  minute : Nat
deriving DecidableEq, Repr

/-- One scheduler registry entry as passed to scheduler.add by the startup
hook. -/
structure ScheduleEntry where
  name : String
  schedule : CronTrigger
  task : String
  args : List String
deriving DecidableEq, Repr

/-- scheduler.remove(name): drop every entry carrying that name. -/
def schedRemove (reg : List ScheduleEntry) (name : String) : List ScheduleEntry :=
  reg.filter (fun e => decide (e.name ≠ name))

/-- scheduler.add(entry): append the entry to the registry. -/
def schedAdd (reg : List ScheduleEntry) (e : ScheduleEntry) : List ScheduleEntry :=
  reg ++ [e]

/-- The wipe loop of the startup hook: for every task currently listed,
remove it by name. -/
def wipeAll (reg : List ScheduleEntry) : List ScheduleEntry :=
  (reg.map ScheduleEntry.name).foldl schedRemove reg

/-- The entry the startup hook builds for one configured grabber: name
grab-<collector>, the cron trigger from its hour and minutes fields, the
worker task, and the collector name as sole positional argument. -/
def mkEntry (g : String × CronTrigger) : ScheduleEntry :=
  { name := "grab-" ++ g.1
    schedule := g.2
    task := "worker.grab_and_ingest"
    args := [g.1] }

/-- The startup reconcile procedure of main.py: wipe every scheduled task,
then add one grab entry per configured grabber.  The configuration mapping
collector to cron fields is modelled as an association list. -/
def startup (reg : List ScheduleEntry) (config : List (String × CronTrigger)) :
    List ScheduleEntry :=
  config.foldl (fun r g => schedAdd r (mkEntry g)) (wipeAll reg)

/-! ## Helper lemmas -/

/-- The foldl underlying lastBy returns a member of the initial element and
the list, with a maximal key. -/
theorem foldl_pickMax_spec {α : Type} (key : α → Nat) (xs : List α) (x : α) :
    (xs.foldl (fun acc y => if key acc ≤ key y then y else acc) x) ∈ x :: xs ∧
      key x ≤ key (xs.foldl (fun acc y => if key acc ≤ key y then y else acc) x) ∧
      ∀ y ∈ xs, key y ≤ key (xs.foldl (fun acc y => if key acc ≤ key y then y else acc) x) := by
  induction xs generalizing x with
  | nil => simp
  | cons y ys ih =>
    simp only [List.foldl_cons]
    rcases ih (if key x ≤ key y then y else x) with ⟨hmem, hinit, hall⟩
    by_cases h : key x ≤ key y
    · rw [if_pos h] at hmem hinit hall ⊢
      refine ⟨?_, ?_, ?_⟩
      · exact List.mem_cons_of_mem x hmem
      · exact le_trans h hinit
      · intro z hz
        rcases List.mem_cons.mp hz with hz | hz
        · exact hz ▸ hinit
        · exact hall z hz
    · rw [if_neg h] at hmem hinit hall ⊢
      refine ⟨?_, hinit, ?_⟩
      · rcases List.mem_cons.mp hmem with hz | hz
        · rw [hz]; exact List.mem_cons_self _ _
        · exact List.mem_cons_of_mem x (List.mem_cons_of_mem y hz)
      · intro z hz
        rcases List.mem_cons.mp hz with hz | hz
        · exact hz ▸ le_trans (Nat.le_of_not_le h) hinit
        · exact hall z hz

/-- lastBy on a nonempty list returns a member with a maximal key. -/
theorem lastBy_spec {α : Type} (key : α → Nat) (l : List α) (h : l ≠ []) :
    ∃ m, lastBy key l = some m ∧ m ∈ l ∧ ∀ x ∈ l, key x ≤ key m := by
  cases l with
  | nil => exact absurd rfl h
  | cons x xs =>
    rcases foldl_pickMax_spec key xs x with ⟨hmem, hx, hall⟩
    refine ⟨_, rfl, hmem, ?_⟩
    intro z hz
    rcases List.mem_cons.mp hz with hz | hz
    · exact hz ▸ hx
    · exact hall z hz

/-- The descCreatedAt comparator is transitive. -/
theorem descCreatedAt_trans (a b c : RoutingSnapshot) :
    descCreatedAt a b → descCreatedAt b c → descCreatedAt a c := by
  simp only [descCreatedAt, decide_eq_true_eq]
  omega

/-- The descCreatedAt comparator is total. -/
theorem descCreatedAt_total (a b : RoutingSnapshot) :
    descCreatedAt a b || descCreatedAt b a := by
  simp only [descCreatedAt, Bool.or_eq_true, decide_eq_true_eq]
  exact Nat.le_total b.created_at a.created_at

/-- The foldl underlying firstMaxBy returns a member of the initial element
and the list, with a maximal key. -/
theorem foldl_pickFirstMax_spec {α : Type} (key : α → Nat) (xs : List α) (x : α) :
    (xs.foldl (fun acc y => if key acc < key y then y else acc) x) ∈ x :: xs ∧
      key x ≤ key (xs.foldl (fun acc y => if key acc < key y then y else acc) x) ∧
      ∀ y ∈ xs, key y ≤ key (xs.foldl (fun acc y => if key acc < key y then y else acc) x) := by
  induction xs generalizing x with
  | nil => simp
  | cons y ys ih =>
    simp only [List.foldl_cons]
    rcases ih (if key x < key y then y else x) with ⟨hmem, hinit, hall⟩
    by_cases h : key x < key y
    · rw [if_pos h] at hmem hinit hall ⊢
      refine ⟨?_, ?_, ?_⟩
      · exact List.mem_cons_of_mem x hmem
      · exact le_trans (Nat.le_of_lt h) hinit
      · intro z hz
        rcases List.mem_cons.mp hz with hz | hz
        · exact hz ▸ hinit
        · exact hall z hz
    · rw [if_neg h] at hmem hinit hall ⊢
      refine ⟨?_, hinit, ?_⟩
      · rcases List.mem_cons.mp hmem with hz | hz
        · rw [hz]; exact List.mem_cons_self _ _
        · exact List.mem_cons_of_mem x (List.mem_cons_of_mem y hz)
      · intro z hz
        rcases List.mem_cons.mp hz with hz | hz
        · exact hz ▸ le_trans (Nat.le_of_not_lt h) hinit
        · exact hall z hz

/-- firstMaxBy on a nonempty list returns a member with a maximal key, and
returns none only on the empty list. -/
theorem firstMaxBy_spec {α : Type} (key : α → Nat) (l : List α) (m : α)
    (h : firstMaxBy key l = some m) :
    m ∈ l ∧ ∀ x ∈ l, key x ≤ key m := by
  cases l with
  | nil => exact absurd h (by simp [firstMaxBy])
  | cons x xs =>
    rcases foldl_pickFirstMax_spec key xs x with ⟨hmem, hx, hall⟩
    have hm : m = xs.foldl (fun acc y => if key acc < key y then y else acc) x := by
      simpa [firstMaxBy] using h.symm
    subst hm
    refine ⟨hmem, ?_⟩
    intro z hz
    rcases List.mem_cons.mp hz with hz | hz
    · exact hz ▸ hx
    · exact hall z hz

/-- Folding schedAdd over the configuration appends the built entries. -/
theorem foldl_schedAdd (config : List (String × CronTrigger)) :
    ∀ init : List ScheduleEntry,
      config.foldl (fun r g => schedAdd r (mkEntry g)) init = init ++ config.map mkEntry := by
  induction config with
  | nil => intro init; simp
  | cons g gs ih =>
    intro init
    simp only [List.foldl_cons, List.map_cons]
    rw [ih (schedAdd init (mkEntry g))]
    simp [schedAdd]

/-- Removing every listed name leaves the registry empty. -/
theorem foldl_schedRemove_nil :
    ∀ (names : List String) (reg : List ScheduleEntry),
      (∀ e ∈ reg, e.name ∈ names) → names.foldl schedRemove reg = [] := by
  intro names
  induction names with
  | nil =>
    intro reg h
    cases reg with
    | nil => rfl
    | cons e es => exact absurd (h e (List.mem_cons_self _ _)) (by simp)
  | cons n ns ih =>
    intro reg h
    simp only [List.foldl_cons]
    apply ih
    intro e he
    have hmem : e ∈ reg := List.mem_of_mem_filter he
    have hne : e.name ≠ n := by
      have := List.of_mem_filter he
      simpa using this
    rcases List.mem_cons.mp (h e hmem) with h1 | h1
    · exact absurd h1 hne
    · exact h1

/-- The wipe loop of the startup hook empties the registry. -/
theorem wipeAll_eq_nil (reg : List ScheduleEntry) : wipeAll reg = [] := by
  apply foldl_schedRemove_nil
  intro e he
  exact List.mem_map_of_mem ScheduleEntry.name he

/-- The startup reconcile procedure yields exactly the configured entries,
regardless of the initial registry content. -/
theorem startup_eq (reg : List ScheduleEntry) (config : List (String × CronTrigger)) :
    startup reg config = config.map mkEntry := by
  unfold startup
  rw [wipeAll_eq_nil, foldl_schedAdd]
  simp

/-! ## Concrete example store used by the witnesses -/

/-- Example collector rc1 of exchange point 1. -/
def exCollector : RouteCollector := { id := 1, name := "rc1", ixp_id := 1 }

/-- Example collector rc2 of exchange point 1. -/
def exCollector2 : RouteCollector := { id := 2, name := "rc2", ixp_id := 1 }

/-- Example collector rc3 of exchange point 1, with no snapshots. -/
def exCollector3 : RouteCollector := { id := 3, name := "rc3", ixp_id := 1 }

/-- A small concrete store: one exchange point, three collectors, three
snapshots (one pending), two route rows, one known autonomous system. -/
def exDb : Store :=
  { internet_exchange_points := [{ id := 1, name := "IX" }]
    route_collectors := [exCollector, exCollector2, exCollector3]
    routing_snapshots :=
      [ { id := 10, route_collector_id := 1, created_at := 86400, status := Status.parsed }
      , { id := 11, route_collector_id := 1, created_at := 172800, status := Status.pending }
      , { id := 12, route_collector_id := 2, created_at := 259200, status := Status.parsed } ]
    ip_routes :=
      [ { block := "10.0.0.0/8", path := [1, 2, 3], snapshot_id := 12, created_at := 259200 }
      , { block := "10.0.0.0/8", path := [1, 2, 9], snapshot_id := 10, created_at := 86400 } ]
    autonomous_systems := [ { number := 3, name := "AS Three" } ] }

/-! ## Claim theorems -/

/-- C1: the shared route-fetch for a snapshot with created_at = T and
id = S returns exactly the projections of the RouteRows satisfying
created_at = T and snapshot_id = S; in particular no row of another
snapshot is selected, even when it shares created_at = T. -/
theorem fetch_routes_exact (db : Store) (T S : Nat) (o : RouteOut) :
    o ∈ fetch_routes db T S ↔
      ∃ r ∈ db.ip_routes, r.created_at = T ∧ r.snapshot_id = S ∧ o = projectRow db r := by
  simp only [fetch_routes, List.mem_map, List.mem_filter, decide_eq_true_eq]
  constructor
  · rintro ⟨r, ⟨hr, hT, hS⟩, rfl⟩
    exact ⟨r, hr, hT, hS, rfl⟩
  · rintro ⟨r, hr, hT, hS, rfl⟩
    exact ⟨r, ⟨hr, hT, hS⟩, rfl⟩

/-- C2: for an existing collector with at least one snapshot, the latest
route lookup resolves the snapshot of that collector with the maximum id
among all its snapshots, with no status filter, and returns its fetched
routes. -/
theorem getLatestRoutes_max_id (db : Store) (cn : String) (rc : RouteCollector)
    (hrc : db.route_collectors.find? (fun c => decide (c.name = cn)) = some rc)
    (hne : db.routing_snapshots.filter
        (fun s => decide (s.route_collector_id = rc.id)) ≠ []) :
    ∃ snap ∈ db.routing_snapshots,
      snap.route_collector_id = rc.id ∧
      (∀ s ∈ db.routing_snapshots, s.route_collector_id = rc.id → s.id ≤ snap.id) ∧
      get_latest_routes db cn =
        .ok { metadata := { created_at := snap.created_at, snapshot_id := snap.id }
              routes := fetch_routes db snap.created_at snap.id } := by
  rcases lastBy_spec RoutingSnapshot.id _ hne with ⟨m, hm, hmem, hmax⟩
  have hmem2 := List.mem_filter.mp hmem
  refine ⟨m, hmem2.1, by simpa using hmem2.2, ?_, ?_⟩
  · intro s hs hsid
    exact hmax s (List.mem_filter.mpr ⟨hs, by simpa using hsid⟩)
  · simp [get_latest_routes, hrc, hm]

/-- C2 witness: in the example store, the latest lookup for rc1 returns
snapshot 11, which is pending and has the maximum id among the snapshots of
rc1. -/
theorem getLatestRoutes_max_id_witness :
    ∃ snap ∈ exDb.routing_snapshots,
      snap.route_collector_id = exCollector.id ∧
      (∀ s ∈ exDb.routing_snapshots, s.route_collector_id = exCollector.id → s.id ≤ snap.id) ∧
      get_latest_routes exDb "rc1" =
        .ok { metadata := { created_at := snap.created_at, snapshot_id := snap.id }
              routes := fetch_routes exDb snap.created_at snap.id } :=
  getLatestRoutes_max_id exDb "rc1" exCollector (by decide) (by decide)

/-- C9: the statistics endpoint counts each table independently: appending
one route collector row raises route_collector_count by exactly one and
leaves the three other counts unchanged; all four counts are non-negative
by construction. -/
theorem statistics_frame (db : Store) (c : RouteCollector) :
    (get_database_statistics (addRouteCollector db c)).route_collector_count
        = (get_database_statistics db).route_collector_count + 1 ∧
    (get_database_statistics (addRouteCollector db c)).snapshots_count
        = (get_database_statistics db).snapshots_count ∧
    (get_database_statistics (addRouteCollector db c)).autonomous_systems
        = (get_database_statistics db).autonomous_systems ∧
    (get_database_statistics (addRouteCollector db c)).ixp_count
        = (get_database_statistics db).ixp_count ∧
    0 ≤ (get_database_statistics db).route_collector_count ∧
    0 ≤ (get_database_statistics db).snapshots_count ∧
    0 ≤ (get_database_statistics db).autonomous_systems ∧
    0 ≤ (get_database_statistics db).ixp_count := by
  simp [get_database_statistics, addRouteCollector]

/-- C10: an existing collector with no parsed snapshot yields an ok empty
list, not a 404. -/
theorem listSnapshots_empty_ok (db : Store) (cn : String) (rc : RouteCollector)
    (hrc : db.route_collectors.find? (fun c => decide (c.name = cn)) = some rc)
    (hemp : db.routing_snapshots.filter
        (fun s => decide (s.route_collector_id = rc.id ∧ s.status = Status.parsed)) = []) :
    get_route_collector_snapshots db cn = .ok [] := by
  simp only [Bool.decide_and] at hemp
  simp [get_route_collector_snapshots, hrc, hemp]

/-- C10 witness: collector rc3 exists in the example store and has no
snapshot at all; listing its snapshots yields the empty list. -/
theorem listSnapshots_empty_ok_witness :
    get_route_collector_snapshots exDb "rc3" = .ok [] :=
  listSnapshots_empty_ok exDb "rc3" exCollector3 (by decide) (by decide)

/-- A stale registry entry left over from a previous run. -/
def exStaleEntry : ScheduleEntry :=
  { name := "grab-OLD"
    schedule := { hour := 1, minute := 0 }
    task := "worker.grab_and_ingest"
    args := ["OLD"] }

/-- The configuration of the reconciler determinism example. -/
def exConfig : List (String × CronTrigger) :=
  [("AMS-IX", { hour := 2, minute := 0 }), ("DE-CIX", { hour := 3, minute := 15 })]

/-- C3: the startup reconcile yields exactly one entry per configured
collector, built by mkEntry (name grab-collector, the configured cron
trigger, the worker task, the collector as argument), with distinct names
when the configured collectors are distinct; the result carries nothing
from the prior registry content, and reconciling twice with the same
configuration yields the same final set. -/
theorem startup_reconciles (reg reg2 : List ScheduleEntry)
    (config : List (String × CronTrigger))
    (hkeys : (config.map Prod.fst).Nodup) :
    startup reg config = config.map mkEntry ∧
    ((startup reg config).map ScheduleEntry.name).Nodup ∧
    startup reg2 config = startup reg config ∧
    startup (startup reg config) config = startup reg config := by
  refine ⟨startup_eq reg config, ?_, ?_, ?_⟩
  · rw [startup_eq, List.map_map]
    have hcal : (ScheduleEntry.name ∘ mkEntry)
        = (fun s => "grab-" ++ s) ∘ Prod.fst := rfl
    rw [hcal, ← List.map_map]
    refine List.Nodup.map ?_ hkeys
    intro a b hab
    have hd : ("grab-" ++ a).data = ("grab-" ++ b).data := congrArg String.data hab
    rw [String.data_append, String.data_append] at hd
    exact String.ext (List.append_cancel_left hd)
  · rw [startup_eq, startup_eq]
  · rw [startup_eq reg config, startup_eq]

/-- C3 witness: reconciling the AMS-IX and DE-CIX configuration over a
registry holding one stale entry yields exactly the two configured entries,
with distinct names, independent of the prior registry, and idempotently. -/
theorem startup_reconciles_witness :
    startup [exStaleEntry] exConfig = exConfig.map mkEntry ∧
    ((startup [exStaleEntry] exConfig).map ScheduleEntry.name).Nodup ∧
    startup [] exConfig = startup [exStaleEntry] exConfig ∧
    startup (startup [exStaleEntry] exConfig) exConfig = startup [exStaleEntry] exConfig :=
  startup_reconciles [exStaleEntry] [] exConfig (by decide)

/-- C5: listing the snapshots of an existing collector yields exactly the
parsed snapshots of that collector, each reduced to id and created_at, in
non-increasing created_at order; no snapshot with a different status and no
snapshot of another collector appears. -/
theorem listSnapshots_parsed_sorted (db : Store) (cn : String) (rc : RouteCollector)
    (hrc : db.route_collectors.find? (fun c => decide (c.name = cn)) = some rc) :
    ∃ l : List RoutingSnapshot,
      get_route_collector_snapshots db cn
        = .ok (l.map (fun s => { id := s.id, created_at := s.created_at })) ∧
      l.Pairwise (fun a b => b.created_at ≤ a.created_at) ∧
      (∀ s ∈ l,
        s ∈ db.routing_snapshots ∧ s.route_collector_id = rc.id ∧
          s.status = Status.parsed) ∧
      (∀ s ∈ db.routing_snapshots,
        s.route_collector_id = rc.id → s.status = Status.parsed → s ∈ l) := by
  refine ⟨(db.routing_snapshots.filter
      (fun s => decide (s.route_collector_id = rc.id ∧ s.status = Status.parsed))).mergeSort
        descCreatedAt, ?_, ?_, ?_, ?_⟩
  · simp [get_route_collector_snapshots, hrc]
  · have hsorted :=
      List.sorted_mergeSort
        (fun a b c => descCreatedAt_trans a b c)
        (fun a b => descCreatedAt_total a b)
        (db.routing_snapshots.filter
          (fun s => decide (s.route_collector_id = rc.id ∧ s.status = Status.parsed)))
    exact hsorted.imp (fun h => by simpa [descCreatedAt] using h)
  · intro s hs
    have hsf := List.mem_filter.mp (List.mem_mergeSort.mp hs)
    have h2 : s.route_collector_id = rc.id ∧ s.status = Status.parsed := by
      simpa using hsf.2
    exact ⟨hsf.1, h2.1, h2.2⟩
  · intro s hs h1 h2
    exact List.mem_mergeSort.mpr (List.mem_filter.mpr ⟨hs, by simp [h1, h2]⟩)

/-- C5 witness: for rc1 in the example store, the listing is exactly the
reduction of its single parsed snapshot, in order; its pending snapshot is
absent. -/
theorem listSnapshots_parsed_sorted_witness :
    ∃ l : List RoutingSnapshot,
      get_route_collector_snapshots exDb "rc1"
        = .ok (l.map (fun s => { id := s.id, created_at := s.created_at })) ∧
      l.Pairwise (fun a b => b.created_at ≤ a.created_at) ∧
      (∀ s ∈ l,
        s ∈ exDb.routing_snapshots ∧ s.route_collector_id = exCollector.id ∧
          s.status = Status.parsed) ∧
      (∀ s ∈ exDb.routing_snapshots,
        s.route_collector_id = exCollector.id → s.status = Status.parsed → s ∈ l) :=
  listSnapshots_parsed_sorted exDb "rc1" exCollector (by decide)

/-- C6: when no collector carries the requested name, each of the three
per-collector operations fails with the 404 collector error, whatever the
content of the snapshot and route tables is — so the failure is decided
before any snapshot or route data is consulted. -/
theorem unknown_collector_404 (db : Store) (cn : String) (sid : Nat)
    (snaps : List RoutingSnapshot) (rts : List RouteRow)
    (h : ∀ c ∈ db.route_collectors, c.name ≠ cn) :
    get_route_collector_snapshots
        { db with routing_snapshots := snaps, ip_routes := rts } cn
      = .error collectorNotFound ∧
    get_latest_routes { db with routing_snapshots := snaps, ip_routes := rts } cn
      = .error collectorNotFound ∧
    get_snapshot_routes { db with routing_snapshots := snaps, ip_routes := rts } cn sid
      = .error collectorNotFound := by
  have hf : ({ db with routing_snapshots := snaps, ip_routes := rts } : Store).route_collectors.find?
      (fun c => decide (c.name = cn)) = none := by
    apply List.find?_eq_none.mpr
    intro c hc
    simpa using h c hc
  refine ⟨?_, ?_, ?_⟩ <;>
    simp [get_route_collector_snapshots, get_latest_routes, get_snapshot_routes, hf]

/-- C6 witness: the name nope matches no collector of the example store and
all three operations return the 404 collector error on it. -/
theorem unknown_collector_404_witness :
    get_route_collector_snapshots
        { exDb with routing_snapshots := exDb.routing_snapshots, ip_routes := exDb.ip_routes }
        "nope"
      = .error collectorNotFound ∧
    get_latest_routes
        { exDb with routing_snapshots := exDb.routing_snapshots, ip_routes := exDb.ip_routes }
        "nope"
      = .error collectorNotFound ∧
    get_snapshot_routes
        { exDb with routing_snapshots := exDb.routing_snapshots, ip_routes := exDb.ip_routes }
        "nope" 12
      = .error collectorNotFound :=
  unknown_collector_404 exDb "nope" 12 exDb.routing_snapshots exDb.ip_routes (by decide)

/-- C7: a route row of the fetched snapshot whose origin (last path
element) matches no autonomous_systems.number is still included in the
fetch result, with a null as_name. -/
theorem unmatched_origin_included (db : Store) (T S : Nat) (r : RouteRow) (o : Nat)
    (hr : r ∈ db.ip_routes) (hT : r.created_at = T) (hS : r.snapshot_id = S)
    (ho : r.path.getLast? = some o)
    (hno : ∀ a ∈ db.autonomous_systems, a.number ≠ o) :
    projectRow db r ∈ fetch_routes db T S ∧ (projectRow db r).as_name = none := by
  constructor
  · apply List.mem_map_of_mem
    exact List.mem_filter.mpr ⟨hr, by simp [hT, hS]⟩
  · have hfind : db.autonomous_systems.find? (fun a => decide (a.number = o)) = none := by
      apply List.find?_eq_none.mpr
      intro a ha
      simpa using hno a ha
    simp [projectRow, ho, hfind]

/-- C7 witness: the example row of snapshot 10 originates at AS 9, which is
absent from the autonomous_systems table; the row is still in the fetch for
snapshot 10 and its as_name is null. -/
theorem unmatched_origin_included_witness :
    projectRow exDb
        { block := "10.0.0.0/8", path := [1, 2, 9], snapshot_id := 10, created_at := 86400 }
      ∈ fetch_routes exDb 86400 10 ∧
    (projectRow exDb
        { block := "10.0.0.0/8", path := [1, 2, 9], snapshot_id := 10, created_at := 86400 }).as_name
      = none :=
  unmatched_origin_included exDb 86400 10
    { block := "10.0.0.0/8", path := [1, 2, 9], snapshot_id := 10, created_at := 86400 }
    9 (by decide) rfl rfl (by decide) (by decide)

/-- C4 (code behaviour at the failing input): snapshot 12 belongs to the
collector with id 2 (rc2) while the query names rc1 (id 1); the by-id route
endpoint nevertheless succeeds and returns the routes of snapshot 12 — no
404 and no mismatch error is raised. -/
theorem getSnapshotRoutes_cross_collector_leak :
    (exDb.routing_snapshots.find? (fun s => decide (s.id = 12))).map
        RoutingSnapshot.route_collector_id = some exCollector2.id ∧
    (exDb.route_collectors.find? (fun c => decide (c.name = "rc1"))).map
        RouteCollector.id = some exCollector.id ∧
    exCollector.id ≠ exCollector2.id ∧
    get_snapshot_routes exDb "rc1" 12 =
      .ok { metadata := { created_at := 259200, snapshot_id := 12 }
            routes := [{ block := "10.0.0.0/8", path := [1, 2, 3], origin := some 3,
                         as_name := some "AS Three" }] } :=
  ⟨by decide, by decide, by decide, rfl⟩

/-- C8: every entry of the exchange-points index counts exactly the
collectors of its exchange point, and when the last-snapshot fields are
attached they identify a snapshot of one of those collectors whose
created_at is maximal across all the snapshots of all those collectors,
with no status filter, the date reduced to day granularity and the
collector named. -/
theorem exchangePoints_summary (db : Store) (e : ExchangePointOut)
    (he : e ∈ exchange_points_index db) :
    ∃ ixp ∈ db.internet_exchange_points,
      e.id = ixp.id ∧ e.name = ixp.name ∧
      e.route_collectors =
        (db.route_collectors.filter (fun c => decide (c.ixp_id = ixp.id))).length ∧
      ∀ sid, e.last_snapshot_id = some sid →
        ∃ snap ∈ db.routing_snapshots,
          snap.id = sid ∧
          ((db.route_collectors.filter (fun c => decide (c.ixp_id = ixp.id))).map
              RouteCollector.id).contains snap.route_collector_id = true ∧
          (∀ s ∈ db.routing_snapshots,
            ((db.route_collectors.filter (fun c => decide (c.ixp_id = ixp.id))).map
                RouteCollector.id).contains s.route_collector_id = true →
            s.created_at ≤ snap.created_at) ∧
          e.last_snapshot_date = some (dateOf snap.created_at) ∧
          ∃ c ∈ db.route_collectors,
            c.ixp_id = ixp.id ∧ c.id = snap.route_collector_id ∧
            e.last_snapshot_collector_name = some c.name := by
  unfold exchange_points_index at he
  rcases List.mem_map.mp he with ⟨ixp, hixp, heq⟩
  subst heq
  refine ⟨ixp, hixp, ?_, ?_, ?_, ?_⟩
  · simp [ixpSummary]
  · simp [ixpSummary]
  · simp [ixpSummary]
  · intro sid hsid
    have hsid2 : (firstMaxBy RoutingSnapshot.created_at
        (db.routing_snapshots.filter
          (fun s => ((db.route_collectors.filter (fun c => decide (c.ixp_id = ixp.id))).map
            RouteCollector.id).contains s.route_collector_id))).map RoutingSnapshot.id
        = some sid := hsid
    cases hhead : firstMaxBy RoutingSnapshot.created_at
        (db.routing_snapshots.filter
          (fun s => ((db.route_collectors.filter (fun c => decide (c.ixp_id = ixp.id))).map
            RouteCollector.id).contains s.route_collector_id)) with
    | none => rw [hhead] at hsid2; simp at hsid2
    | some snap =>
      rw [hhead] at hsid2
      have hsnapid : snap.id = sid := by simpa using hsid2
      rcases firstMaxBy_spec RoutingSnapshot.created_at _ snap hhead with ⟨hmemf, hmax⟩
      have hmem2 := List.mem_filter.mp hmemf
      refine ⟨snap, hmem2.1, hsnapid, hmem2.2, ?_, ?_, ?_⟩
      · intro s hs hcont
        exact hmax s (List.mem_filter.mpr ⟨hs, hcont⟩)
      · show (firstMaxBy RoutingSnapshot.created_at
            (db.routing_snapshots.filter
              (fun s => ((db.route_collectors.filter (fun c => decide (c.ixp_id = ixp.id))).map
                RouteCollector.id).contains s.route_collector_id))).map
            (fun s => dateOf s.created_at) = some (dateOf snap.created_at)
        rw [hhead]
        rfl
      · have hcontains2 : snap.route_collector_id ∈
            (db.route_collectors.filter
              (fun c => decide (c.ixp_id = ixp.id))).map RouteCollector.id := by
          simpa using hmem2.2
        rcases List.mem_map.mp hcontains2 with ⟨c1, hc1mem, hc1id⟩
        have hfs : ((db.route_collectors.filter (fun c => decide (c.ixp_id = ixp.id))).find?
            (fun c => decide (c.id = snap.route_collector_id))).isSome := by
          rw [List.find?_isSome]
          exact ⟨c1, hc1mem, by simp [hc1id]⟩
        rcases Option.isSome_iff_exists.mp hfs with ⟨c0, hc0⟩
        have hc0mem : c0 ∈ db.route_collectors.filter
            (fun c => decide (c.ixp_id = ixp.id)) :=
          List.mem_of_find?_eq_some hc0
        have hc0split := List.mem_filter.mp hc0mem
        have hc0id : c0.id = snap.route_collector_id := by
          have := List.find?_some hc0
          simpa using this
        refine ⟨c0, hc0split.1, by simpa using hc0split.2, hc0id, ?_⟩
        show (firstMaxBy RoutingSnapshot.created_at
            (db.routing_snapshots.filter
              (fun s => ((db.route_collectors.filter (fun c => decide (c.ixp_id = ixp.id))).map
                RouteCollector.id).contains s.route_collector_id))).bind
            (fun s => ((db.route_collectors.filter (fun c => decide (c.ixp_id = ixp.id))).find?
              (fun c => decide (c.id = s.route_collector_id))).map RouteCollector.name)
          = some c0.name
        rw [hhead]
        show ((db.route_collectors.filter (fun c => decide (c.ixp_id = ixp.id))).find?
            (fun c => decide (c.id = snap.route_collector_id))).map RouteCollector.name
          = some c0.name
        rw [hc0]
        rfl

/-- C8 witness: in the example store the single exchange point reports
three collectors, and its last-snapshot fields name snapshot 12 of rc2,
created on day 3. -/
theorem exchangePoints_summary_witness :
    ∃ ixp ∈ exDb.internet_exchange_points,
      ({ id := 1, name := "IX", route_collectors := 3,
         last_snapshot_date := some 3, last_snapshot_id := some 12,
         last_snapshot_collector_name := some "rc2" } : ExchangePointOut).id = ixp.id ∧
      ({ id := 1, name := "IX", route_collectors := 3,
         last_snapshot_date := some 3, last_snapshot_id := some 12,
         last_snapshot_collector_name := some "rc2" } : ExchangePointOut).name = ixp.name ∧
      ({ id := 1, name := "IX", route_collectors := 3,
         last_snapshot_date := some 3, last_snapshot_id := some 12,
         last_snapshot_collector_name := some "rc2" } : ExchangePointOut).route_collectors =
        (exDb.route_collectors.filter (fun c => decide (c.ixp_id = ixp.id))).length ∧
      ∀ sid,
        ({ id := 1, name := "IX", route_collectors := 3,
           last_snapshot_date := some 3, last_snapshot_id := some 12,
           last_snapshot_collector_name := some "rc2" } : ExchangePointOut).last_snapshot_id
          = some sid →
        ∃ snap ∈ exDb.routing_snapshots,
          snap.id = sid ∧
          ((exDb.route_collectors.filter (fun c => decide (c.ixp_id = ixp.id))).map
              RouteCollector.id).contains snap.route_collector_id = true ∧
          (∀ s ∈ exDb.routing_snapshots,
            ((exDb.route_collectors.filter (fun c => decide (c.ixp_id = ixp.id))).map
                RouteCollector.id).contains s.route_collector_id = true →
            s.created_at ≤ snap.created_at) ∧
          ({ id := 1, name := "IX", route_collectors := 3,
             last_snapshot_date := some 3, last_snapshot_id := some 12,
             last_snapshot_collector_name := some "rc2" } : ExchangePointOut).last_snapshot_date
            = some (dateOf snap.created_at) ∧
          ∃ c ∈ exDb.route_collectors,
            c.ixp_id = ixp.id ∧ c.id = snap.route_collector_id ∧
            ({ id := 1, name := "IX", route_collectors := 3,
               last_snapshot_date := some 3, last_snapshot_id := some 12,
               last_snapshot_collector_name := some "rc2" } : ExchangePointOut).last_snapshot_collector_name
              = some c.name :=
  exchangePoints_summary exDb
    { id := 1, name := "IX", route_collectors := 3,
      last_snapshot_date := some 3, last_snapshot_id := some 12,
      last_snapshot_collector_name := some "rc2" }
    (by decide)

end Aspath
